import Mathlib

/-!
Verification of the Adjacent News API gateway (`src/index.ts`, two snapshots
of the same Hono application). Each route handler is shallowly embedded as a
pure Lean function over the outcomes of its outbound calls; JavaScript
primitives the handlers rely on (`parseInt`, `Array.prototype.slice`,
optional chaining, rest destructuring) are embedded with their ECMAScript
semantics. `NaN` is represented by `none : Option Int`.
-/

namespace AdjApi

/-- A JS hexadecimal digit value, `none` when the character is not one. -/
def hexDigit? (c : Char) : Option Nat :=
  if '0' ≤ c ∧ c ≤ '9' then some (c.toNat - '0'.toNat)
  else if 'a' ≤ c ∧ c ≤ 'f' then some (c.toNat - 'a'.toNat + 10)
  else if 'A' ≤ c ∧ c ≤ 'F' then some (c.toNat - 'A'.toNat + 10)
  else none

/-- Digit value of `c` in base `radix`, `none` when `c` is not such a digit. -/
def digitIn? (radix : Nat) (c : Char) : Option Nat :=
  match hexDigit? c with
  | some d => if d < radix then some d else none
  | none => none

/-- Accumulate the value of the longest digit prefix (ECMAScript `parseInt`
stops at the first character that is not a digit of the radix). -/
def parseDigitsAux (radix : Nat) : List Char → Nat → Nat
  | [], acc => acc
  | c :: cs, acc =>
    match digitIn? radix c with
    | some d => parseDigitsAux radix cs (acc * radix + d)
    | none => acc

/-- Value of the longest digit prefix of `cs` in base `radix`;
`none` (JS `NaN`) when `cs` does not start with a digit. -/
def parseUnsigned (radix : Nat) (cs : List Char) : Option Nat :=
  match cs with
  | [] => none
  | c :: _ =>
    match digitIn? radix c with
    | some _ => some (parseDigitsAux radix cs 0)
    | none => none

/-- ECMAScript `parseInt(s)` with the radix argument undefined: strip leading
whitespace, read an optional sign, detect a `0x`/`0X` hex prefix, then parse
the longest digit prefix. `none` models the `NaN` result. -/
def parseInt (s : String) : Option Int :=
  let cs := s.toList.dropWhile (fun c => c.isWhitespace)
  let signed : Int × List Char :=
    match cs with
    | '-' :: rest => (-1, rest)
    | '+' :: rest => (1, rest)
    | _ => (1, cs)
  let prefixed : Nat × List Char :=
    match signed.2 with
    | '0' :: 'x' :: rest => (16, rest)
    | '0' :: 'X' :: rest => (16, rest)
    | _ => (10, signed.2)
  (parseUnsigned prefixed.1 prefixed.2).map (fun n => signed.1 * n)

/-- JS addition on numbers that may be `NaN`: `NaN` propagates. -/
def jsAdd (a b : Option Int) : Option Int :=
  match a, b with
  | some x, some y => some (x + y)
  | _, _ => none

/-- `ToIntegerOrInfinity` followed by the relative-index clamping that
`Array.prototype.slice` applies: `NaN` becomes `0`, a negative index counts
from the end (clamped at `0`), a nonnegative index is clamped at `len`. -/
def jsSliceIndex (len : Nat) (v : Option Int) : Nat :=
  match v with
  | none => 0
  | some i => if i < 0 then ((len : Int) + i).toNat else min i.toNat len

/-- ECMAScript `Array.prototype.slice(start, end)` on a list. -/
def jsSlice {α : Type} (xs : List α) (s e : Option Int) : List α :=
  let k := jsSliceIndex xs.length s
  let f := jsSliceIndex xs.length e
  (xs.drop k).take (f - k)

/-- An HTTP response of the gateway: Hono's `c.json` serialises `body` with
status `status` (200 unless the handler called `c.status` earlier). -/
structure Response (β : Type) where
  status : Nat
  body : β
deriving DecidableEq, Repr

/-- The `allMarketsRoute` handler (identical logic in both snapshots of
`index.ts`): read the `index` path parameter, take `0` when it is falsy
(absent or empty) and `parseInt(index)` otherwise, fetch the combined
dataset, and return `markets?.slice(number, number + 100)` as JSON. The
outcome of `fetchAndCombineJsonFiles()` is passed in as `markets`
(`none` models `undefined`). -/
def allMarketsHandler {M : Type} (index : Option String) (markets : Option (List M)) :
    Response (Option (List M)) :=
  let number : Option Int :=
    match index with
    | none => some 0
    | some s => if s = "" then some 0 else parseInt s
  ⟨200, markets.map (fun ms => jsSlice ms number (jsAdd number (some 100)))⟩

/-- The fixed apology text the news handler returns when `exa.search` rejects. -/
def newsApology : String :=
  "An error occurred while fetching news articles. Please try again later."

/-- Body of a news-route response: either the provider's result passed
through, or the one-element apology list built in the `catch` callback. -/
inductive NewsBody (ρ : Type) where
  | results (r : ρ)
  | errors (msgs : List String)
deriving DecidableEq, Repr

/-- The `newsRoute` handler (both snapshots): await `exa.search(market, …)`
with a `.catch` that sets `c.status(500)` and substitutes the apology list,
then return the value as JSON. The promise outcome is passed in as
`searchOutcome`; `.error` models a rejected provider call. -/
def newsHandler {ε ρ : Type} (searchOutcome : Except ε ρ) : Response (NewsBody ρ) :=
  match searchOutcome with
  | .ok r => ⟨200, .results r⟩
  | .error _ => ⟨500, .errors [newsApology]⟩

/-- Milliseconds per day; JS `Date` time values are milliseconds since epoch. -/
def msPerDay : Int := 86400000

/-- The four date bounds forwarded to the external search provider. -/
structure SearchDates where
  startCrawlDate : Int
  endCrawlDate : Int
  startPublishedDate : Int
  endPublishedDate : Int
deriving DecidableEq, Repr

/-- Date window built by the snapshot-1 `newsRoute` handler at request time
`now`: `endDate = new Date()`, `startDate` seven days earlier, then
`startCrawlDate/startPublishedDate := startDate` and
`endCrawlDate/endPublishedDate := endDate`. -/
def newsSearchDates1 (now : Int) : SearchDates :=
  { startCrawlDate := now - 7 * msPerDay
    endCrawlDate := now
    startPublishedDate := now - 7 * msPerDay
    endPublishedDate := now }

/-- Date window built by the snapshot-2 `newsRoute` handler at request time
`now`, with the assignments exactly as written there:
`endCrawlDate := startDate`, `endPublishedDate := endDate`,
`startCrawlDate := startDate`, `startPublishedDate := endDate`. -/
def newsSearchDates2 (now : Int) : SearchDates :=
  { startCrawlDate := now - 7 * msPerDay
    endCrawlDate := now - 7 * msPerDay
    startPublishedDate := now
    endPublishedDate := now }

/-- The JSON body returned by the embedding endpoint: the handler reads its
`embedding` field. `E` is the type of embedding vectors. -/
structure EmbedResp (E : Type) where
  embedding : E
deriving DecidableEq, Repr

/-- Outcome of the `fetch` to the hosted embedding endpoint when the promise
resolves: the `ok` flag, the HTTP status, and the parsed JSON body. -/
structure FetchResp (E : Type) where
  ok : Bool
  status : Nat
  body : EmbedResp E
deriving DecidableEq, Repr

/-- Arguments the gateway forwards to the `match_documents` nearest-neighbor
RPC. -/
structure RpcParams (E : Type) where
  query_embedding : E
  match_threshold : ℚ
  match_count : Nat
deriving DecidableEq, Repr

/-- The argument object `useRelatedMarkets` builds for `supabase.rpc`:
`query_embedding` is the embedding from the embed call, `match_threshold` is
the literal `0.803` and `match_count` the literal `3`. -/
def buildRpcParams {E : Type} (embedding : EmbedResp E) : RpcParams E :=
  { query_embedding := embedding.embedding
    match_threshold := 803 / 1000
    match_count := 3 }

/-- A market record as a JS object: ordered own enumerable properties, keyed
by field name, with values of type `V`. -/
abbrev Rec (V : Type) : Type := List (String × V)

/-- The rest-destructuring `const {question_embedding, ...rest} = market`:
`rest` keeps every own property except `question_embedding`, in order. -/
def stripEmbedding {V : Type} (market : Rec V) : Rec V :=
  market.filter (fun p => p.1 ≠ "question_embedding")

/-- The tail of `useRelatedMarkets`: `.then(({data}) => data)` passes the
RPC's `data` through (possibly `null`, modelled as `none`), and `.catch`
turns a rejected RPC promise into the empty list. -/
def useRelatedMarkets {V : Type} (rpcOutcome : Except Unit (Option (List (Rec V)))) :
    Option (List (Rec V)) :=
  match rpcOutcome with
  | .ok d => d
  | .error _ => some []

/-- The fixed sentinel string for the zero-match case of the headline route. -/
def noRelatedSentinel : String := "No related markets. Explore at https://data.adj.news"

/-- The fixed user-facing message of the headline route's `catch` block. -/
def headlineErrorMsg : String := "Error processing your request. Please try again later."

/-- Body of a headline-route response: either the stripped market records, or
one of the plain strings (sentinel / error message). -/
inductive HeadlineBody (V : Type) where
  | markets (ms : List (Rec V))
  | message (s : String)
deriving DecidableEq, Repr

/-- The `marketsByHeadlineRoute` handler (snapshot 1). `embedFetch` is the
outcome of the `fetch` to the embedding endpoint (`.error` models a rejected
promise); `rpc` maps the forwarded `match_documents` arguments to that call's
outcome. Control flow as in the source: a rejected fetch or `!response.ok`
throws into the `catch`, which returns `c.json(message)` — with no
`c.status` call, so the default status 200; otherwise the embedding is passed
to `useRelatedMarkets`, `question_embedding` is stripped from each record
(`markets.map` throws into the `catch` when the RPC data was `null`), and a
nonempty list is returned as is, an empty one as the sentinel string. -/
def marketsByHeadlineHandler {E V : Type} (embedFetch : Except Unit (FetchResp E))
    (rpc : RpcParams E → Except Unit (Option (List (Rec V)))) :
    Response (HeadlineBody V) :=
  match embedFetch with
  | .error _ => ⟨200, .message headlineErrorMsg⟩
  | .ok resp =>
    if resp.ok then
      match useRelatedMarkets (rpc (buildRpcParams resp.body)) with
      | none => ⟨200, .message headlineErrorMsg⟩
      | some ms =>
        let stripped := ms.map stripEmbedding
        if stripped.length > 0 then ⟨200, .markets stripped⟩
        else ⟨200, .message noRelatedSentinel⟩
    else ⟨200, .message headlineErrorMsg⟩

/-- Slicing from a start index at or past the end of the array yields the
empty array, whatever the end index is. -/
theorem jsSlice_start_ge {α : Type} (xs : List α) (i : Int) (hi : 0 ≤ i)
    (h : (xs.length : Int) ≤ i) (e : Option Int) : jsSlice xs (some i) e = [] := by
  have hk : jsSliceIndex xs.length (some i) = xs.length := by
    simp only [jsSliceIndex]
    rw [if_neg (by omega)]
    omega
  simp only [jsSlice, hk, List.drop_length, List.take_nil]

/-- Slicing with `NaN` bounds yields the empty array (`ToIntegerOrInfinity`
maps `NaN` to `0`, so the window is `[0, 0)`). -/
theorem jsSlice_nan {α : Type} (xs : List α) : jsSlice xs none none = [] := by
  simp [jsSlice, jsSliceIndex]

/-- Slicing `[0, 100)` returns the first `min 100 (length)` elements. -/
theorem jsSlice_zero_100 {α : Type} (xs : List α) :
    jsSlice xs (some 0) (some 100) = xs.take 100 := by
  have hk : jsSliceIndex xs.length (some 0) = 0 := by
    simp [jsSliceIndex]
  have hf : jsSliceIndex xs.length (some 100) = min 100 xs.length := by
    simp only [jsSliceIndex]
    rw [if_neg (by omega)]
    rfl
  simp only [jsSlice, hk, hf, List.drop_zero, Nat.sub_zero]
  rw [List.take_eq_take]
  omega

/-- Claim C1: for every offset `i` at or beyond the length of the combined
market dataset, the market-listing handler `GET /api/markets/{index}` returns
an empty sequence with HTTP status 200, never an error. -/
theorem markets_beyond_length_empty {M : Type} (ms : List M) (s : String) (i : Nat)
    (hparse : parseInt s = some (i : Int)) (hlen : ms.length ≤ i) :
    allMarketsHandler (some s) (some ms) = ⟨200, some []⟩ := by
  have hs : s ≠ "" := by
    intro h
    subst h
    rw [show parseInt "" = none from rfl] at hparse
    exact Option.noConfusion hparse
  simp only [allMarketsHandler, if_neg hs, hparse, jsAdd, Option.map]
  rw [jsSlice_start_ge ms (i : Int) (by omega) (by omega)]

/-- Claim C1 witness: index `"5"` against a 3-element dataset. -/
theorem markets_beyond_length_empty_witness :
    parseInt "5" = some 5 ∧ ([1, 2, 3] : List Nat).length ≤ 5 ∧
      allMarketsHandler (some "5") (some ([1, 2, 3] : List Nat)) = ⟨200, some []⟩ :=
  ⟨by decide, by decide, markets_beyond_length_empty [1, 2, 3] "5" 5 (by decide) (by decide)⟩

/-- Claim C2: for offset 0 (index path parameter absent or `"0"`), the
market-listing handler returns exactly the first `min 100 (length)` dataset
records — a prefix of the dataset, hence in dataset order, of at most 100
records — with HTTP status 200. -/
theorem markets_offset_zero_first_100 {M : Type} (ms : List M) :
    allMarketsHandler none (some ms) = ⟨200, some (ms.take 100)⟩ ∧
      allMarketsHandler (some "0") (some ms) = ⟨200, some (ms.take 100)⟩ ∧
      (ms.take 100).length ≤ 100 ∧ ms.take 100 <+: ms := by
  refine ⟨?_, ?_, ?_, List.take_prefix 100 ms⟩
  · simp only [allMarketsHandler, jsAdd, Option.map]
    rw [show ((0 : Int) + 100) = 100 from rfl, jsSlice_zero_100]
  · have h0 : parseInt "0" = some 0 := by decide
    simp only [allMarketsHandler, if_neg (by decide : ¬ ("0" = "")), h0, jsAdd, Option.map]
    rw [show ((0 : Int) + 100) = 100 from rfl, jsSlice_zero_100]
  · simp [List.length_take]

/-- Claim C9: for every nonempty index path parameter on which `parseInt`
yields `NaN`, the market-listing handler slices with `NaN` bounds and returns
the empty sequence with HTTP status 200, not an error. -/
theorem markets_nan_index_empty {M : Type} (ms : List M) (s : String)
    (hs : s ≠ "") (hparse : parseInt s = none) :
    allMarketsHandler (some s) (some ms) = ⟨200, some []⟩ := by
  simp only [allMarketsHandler, if_neg hs, hparse, jsAdd, Option.map]
  rw [jsSlice_nan]

/-- Claim C9 witness: the non-numeric index `"abc"`. -/
theorem markets_nan_index_empty_witness :
    "abc" ≠ "" ∧ parseInt "abc" = none ∧
      allMarketsHandler (some "abc") (some ([1, 2, 3] : List Nat)) = ⟨200, some []⟩ :=
  ⟨by decide, by decide, markets_nan_index_empty [1, 2, 3] "abc" (by decide) (by decide)⟩

/-- Claim C3: whenever the external search provider call rejects, the news
handler returns a response with HTTP status 500 whose body is the one-element
list holding the fixed apology text; the `catch` converts the failure, so it
is never propagated as a thrown fault (the handler is total by construction). -/
theorem news_provider_failure_apology_500 {ε ρ : Type} (e : ε) :
    newsHandler (ρ := ρ) (Except.error e) = ⟨500, .errors [newsApology]⟩ := rfl

/-- Claim C8, evaluated at request time `now = 0`: snapshot 1 forwards crawl
and published windows that each span exactly 7 days, but snapshot 2 assigns
`endCrawlDate := startDate` and `startPublishedDate := endDate`, so its
forwarded crawl window and published window both span 0 days — its start
dates are not 7 days before the corresponding end dates. -/
theorem news_snapshot2_date_window_zero_span :
    (newsSearchDates1 0).endCrawlDate - (newsSearchDates1 0).startCrawlDate = 7 * msPerDay ∧
      (newsSearchDates1 0).endPublishedDate - (newsSearchDates1 0).startPublishedDate
        = 7 * msPerDay ∧
      (newsSearchDates2 0).endCrawlDate - (newsSearchDates2 0).startCrawlDate = 0 ∧
      (newsSearchDates2 0).endPublishedDate - (newsSearchDates2 0).startPublishedDate = 0 := by
  decide

/-- Claim C4: when the embed call succeeds and the nearest-neighbor RPC
returns zero matches above the threshold, the headline handler returns the
fixed sentinel string (as a `message`, not an empty `markets` list and not an
error) with HTTP status 200. -/
theorem headline_zero_matches_sentinel {E V : Type} (st : Nat) (b : EmbedResp E) :
    marketsByHeadlineHandler (V := V) (Except.ok ⟨true, st, b⟩)
      (fun _ => Except.ok (some [])) = ⟨200, .message noRelatedSentinel⟩ := rfl

/-- Claim C5 counterexample: at the concrete input where the embed fetch
rejects, the headline handler returns the fixed error message but with HTTP
status 200 — the `catch` block never calls `c.status(500)` — refuting the
claimed status 500. -/
theorem headline_embed_failure_not_500_cex :
    (marketsByHeadlineHandler (E := Nat) (V := Nat) (Except.error ())
        (fun _ => Except.ok (some []))).status = 200 ∧
      (marketsByHeadlineHandler (E := Nat) (V := Nat) (Except.error ())
        (fun _ => Except.ok (some []))).status ≠ 500 ∧
      (marketsByHeadlineHandler (E := Nat) (V := Nat) (Except.error ())
        (fun _ => Except.ok (some []))).body = .message headlineErrorMsg := by
  decide

/-- Claim C5 as amended: for every headline request on which the upstream
embed call fails — by rejecting, or by resolving with a non-ok HTTP status —
the handler reports the fixed user-facing error message with HTTP status 200
(Hono's default; the catch block sets no status). -/
theorem headline_embed_failure_message_200 {E V : Type}
    (rpc : RpcParams E → Except Unit (Option (List (Rec V)))) (st : Nat) (b : EmbedResp E) :
    marketsByHeadlineHandler (Except.error ()) rpc = ⟨200, .message headlineErrorMsg⟩ ∧
      marketsByHeadlineHandler (Except.ok ⟨false, st, b⟩) rpc
        = ⟨200, .message headlineErrorMsg⟩ :=
  ⟨rfl, rfl⟩

/-- Claim C6 counterexample: two requests whose embeddings differ produce
distinct RPC argument objects whose forwarded `match_threshold` and
`match_count` nevertheless coincide, being the hard-coded literals `0.803`
and `3` — they are not taken from the caller's request parameters (the
request schema carries only `headline`). -/
theorem headline_threshold_count_not_caller_cex :
    buildRpcParams (E := Nat) ⟨1⟩ ≠ buildRpcParams (E := Nat) ⟨2⟩ ∧
      (buildRpcParams (E := Nat) ⟨1⟩).match_threshold
        = (buildRpcParams (E := Nat) ⟨2⟩).match_threshold ∧
      (buildRpcParams (E := Nat) ⟨1⟩).match_count = (buildRpcParams (E := Nat) ⟨2⟩).match_count ∧
      (buildRpcParams (E := Nat) ⟨1⟩).match_threshold = 803 / 1000 ∧
      (buildRpcParams (E := Nat) ⟨1⟩).match_count = 3 := by
  refine ⟨?_, rfl, rfl, rfl, rfl⟩
  intro h
  have h2 := congrArg RpcParams.query_embedding h
  simp [buildRpcParams] at h2

/-- Claim C6 as amended: for every headline request the handler passes the
resulting embedding vector to the nearest-neighbor RPC together with the
fixed similarity threshold `0.803` and the fixed match count `3`, which are
hard-coded in `useRelatedMarkets` and not adjustable by the caller. -/
theorem headline_rpc_fixed_threshold_count {E : Type} (b : EmbedResp E) :
    (buildRpcParams b).query_embedding = b.embedding ∧
      (buildRpcParams b).match_threshold = 803 / 1000 ∧
      (buildRpcParams b).match_count = 3 :=
  ⟨rfl, rfl, rfl⟩

/-- Claim C7: when the RPC returns a nonempty record list, the headline
handler returns exactly those records with `question_embedding` removed from
each: no returned record retains a `question_embedding` property, and each
record's other properties are passed through unchanged — an in-order sublist,
with membership preserved both ways. -/
theorem headline_strips_question_embedding {E V : Type} (st : Nat) (b : EmbedResp E)
    (docs : List (Rec V)) (hne : docs ≠ []) :
    marketsByHeadlineHandler (Except.ok ⟨true, st, b⟩) (fun _ => Except.ok (some docs)) =
      ⟨200, .markets (docs.map stripEmbedding)⟩ ∧
    ∀ d ∈ docs, (∀ p ∈ stripEmbedding d, p.1 ≠ "question_embedding") ∧
      List.Sublist (stripEmbedding d) d ∧
      ∀ p : String × V, p.1 ≠ "question_embedding" → (p ∈ stripEmbedding d ↔ p ∈ d) := by
  constructor
  · simp [marketsByHeadlineHandler, useRelatedMarkets, List.length_pos, hne]
  · intro d _
    refine ⟨?_, List.filter_sublist d, ?_⟩
    · intro p hp
      have := List.of_mem_filter hp
      simpa using this
    · intro p hp
      constructor
      · intro h
        exact List.mem_of_mem_filter h
      · intro h
        exact List.mem_filter.mpr ⟨h, by simpa using hp⟩

/-- Claim C7 witness: one record with an `id` field and a
`question_embedding` field. -/
theorem headline_strips_question_embedding_witness :
    ([[("id", 1), ("question_embedding", 2)]] : List (Rec Nat)) ≠ [] ∧
      (marketsByHeadlineHandler (Except.ok ⟨true, 200, ⟨(5 : Nat)⟩⟩)
          (fun _ => Except.ok (some [[("id", 1), ("question_embedding", 2)]])) =
        ⟨200, .markets (([[("id", 1), ("question_embedding", 2)]] : List (Rec Nat)).map
          stripEmbedding)⟩ ∧
      ∀ d ∈ ([[("id", 1), ("question_embedding", 2)]] : List (Rec Nat)),
        (∀ p ∈ stripEmbedding d, p.1 ≠ "question_embedding") ∧
        List.Sublist (stripEmbedding d) d ∧
        ∀ p : String × Nat, p.1 ≠ "question_embedding" →
          (p ∈ stripEmbedding d ↔ p ∈ d)) :=
  ⟨by decide,
    headline_strips_question_embedding 200 ⟨(5 : Nat)⟩
      [[("id", 1), ("question_embedding", 2)]] (by decide)⟩

/-- Claim C10: a rejected nearest-neighbor RPC is caught inside
`useRelatedMarkets`, which returns the empty list, so the headline handler
responds with the fixed sentinel string and status 200 — the very response a
genuine zero-match result produces, making the two indistinguishable at the
public interface. -/
theorem headline_rpc_failure_sentinel_200 {E V : Type} (st : Nat) (b : EmbedResp E) :
    useRelatedMarkets (V := V) (Except.error ()) = some [] ∧
      marketsByHeadlineHandler (E := E) (V := V) (Except.ok ⟨true, st, b⟩)
        (fun _ => Except.error ()) = ⟨200, .message noRelatedSentinel⟩ ∧
      marketsByHeadlineHandler (Except.ok ⟨true, st, b⟩) (fun _ => Except.error ()) =
        marketsByHeadlineHandler (E := E) (V := V) (Except.ok ⟨true, st, b⟩)
          (fun _ => Except.ok (some [])) :=
  ⟨rfl, rfl, rfl⟩

end AdjApi
